import Mathlib

/-!
A shallow embedding of the core of the `frequenz-sdk-python` repository:
the power-distributing actor (`power_distributing.py`) and the timeseries
resampler (`_resampling.py`), together with theorems settling the frozen
claims about them.

Conventions of the embedding:
* Python floats are modelled as rationals (`ℚ`); the claims under scrutiny
  only involve exact comparisons, sums, `min`/`max`, division and `ceil`,
  all of which the code performs on finite values.
* Timestamps (`datetime`) are modelled as rationals (seconds since an
  arbitrary epoch); `timedelta` addition becomes rational addition.
* Component ids are `ℕ`; Python sets of ids are `Finset ℕ`.
* Exceptions that a function can raise are modelled with `Except String`
  (the message) or `Option`.
* External collaborators (microgrid API, health tracker, channels) are
  modelled as explicit inputs to the functions that consult them.
-/

/-- Power bounds record.

The `PowerBounds` dataclass itself lives in `result.py` which is not part of
the sources; its four fields are taken from the spec (section 3,
"PowerBounds") and from how `_get_bounds` constructs it. -/
structure PowerBounds where
  inclusion_lower : ℚ
  inclusion_upper : ℚ
  exclusion_lower : ℚ
  exclusion_upper : ℚ
deriving DecidableEq, Repr

/-- The slice of inverter telemetry used by the power distributor
(`InverterData`): the four active-power bound metrics. -/
structure InverterData where
  active_power_inclusion_lower_bound : ℚ
  active_power_inclusion_upper_bound : ℚ
  active_power_exclusion_lower_bound : ℚ
  active_power_exclusion_upper_bound : ℚ
deriving DecidableEq, Repr

/-- The slice of the aggregated battery data used by the power distributor:
its id and its `power_bounds` (an aggregated `PowerBounds`). -/
structure AggregatedBatteryData where
  component_id : ℕ
  power_bounds : PowerBounds
deriving DecidableEq, Repr

/-- One aggregated battery together with the telemetry of its adjacent
inverters (`InvBatPair`). Iterating over the pair yields
`(battery, inverter list)`, as in `for battery, inverters in pairs_data`. -/
structure InvBatPair where
  battery : AggregatedBatteryData
  inverter : List InverterData
deriving DecidableEq, Repr

/-- Transcription of `PowerDistributingActor._get_bounds`: the aggregate power bounds of a
snapshot.  Inclusion bounds: per pair, the most restrictive of the battery
bound and the sum of the pair's inverter bounds, summed over pairs.
Exclusion bounds: `min` (resp. `max`) of the sum of all battery exclusion
bounds and the sum of all inverter exclusion bounds. -/
def getBounds (pairs_data : List InvBatPair) : PowerBounds where
  inclusion_lower :=
    (pairs_data.map (fun p =>
      max p.battery.power_bounds.inclusion_lower
        ((p.inverter.map
          (fun inverter => inverter.active_power_inclusion_lower_bound)).sum))).sum
  inclusion_upper :=
    (pairs_data.map (fun p =>
      min p.battery.power_bounds.inclusion_upper
        ((p.inverter.map
          (fun inverter => inverter.active_power_inclusion_upper_bound)).sum))).sum
  exclusion_lower :=
    min ((pairs_data.map (fun p => p.battery.power_bounds.exclusion_lower)).sum)
      ((pairs_data.map (fun p =>
        (p.inverter.map
          (fun inverter => inverter.active_power_exclusion_lower_bound)).sum)).sum)
  exclusion_upper :=
    max ((pairs_data.map (fun p => p.battery.power_bounds.exclusion_upper)).sum)
      ((pairs_data.map (fun p =>
        (p.inverter.map
          (fun inverter => inverter.active_power_exclusion_upper_bound)).sum)).sum)

/-- The aggregate bound computation as worded by the spec and claim C1:
inclusion bounds as in the code, but the exclusion bounds follow a
*per-pair* `min`/`max` rule — each pair combines its battery exclusion
bound with the sum of its inverters' exclusion bounds, and the pool takes
the `min` (resp. `max`) of these per-pair values over all pairs.  For an
empty list (which the claim excludes) the fold defaults to `0`. -/
def getBoundsSpecC1 (pairs_data : List InvBatPair) : PowerBounds where
  inclusion_lower :=
    (pairs_data.map (fun p =>
      max p.battery.power_bounds.inclusion_lower
        ((p.inverter.map
          (fun inverter => inverter.active_power_inclusion_lower_bound)).sum))).sum
  inclusion_upper :=
    (pairs_data.map (fun p =>
      min p.battery.power_bounds.inclusion_upper
        ((p.inverter.map
          (fun inverter => inverter.active_power_inclusion_upper_bound)).sum))).sum
  exclusion_lower :=
    ((pairs_data.map (fun p =>
      min p.battery.power_bounds.exclusion_lower
        ((p.inverter.map
          (fun inverter => inverter.active_power_exclusion_lower_bound)).sum))).min?).getD 0
  exclusion_upper :=
    ((pairs_data.map (fun p =>
      max p.battery.power_bounds.exclusion_upper
        ((p.inverter.map
          (fun inverter => inverter.active_power_exclusion_upper_bound)).sum))).max?).getD 0

/-- A concrete snapshot of two identical battery/inverter pairs used to
separate the code's aggregate exclusion bounds from the per-pair rule. -/
def c1ExamplePair : InvBatPair where
  battery := { component_id := 1
               power_bounds := { inclusion_lower := -100, inclusion_upper := 100
                                 exclusion_lower := -10, exclusion_upper := 10 } }
  inverter := [{ active_power_inclusion_lower_bound := -100
                 active_power_inclusion_upper_bound := 100
                 active_power_exclusion_lower_bound := -5
                 active_power_exclusion_upper_bound := 5 }]

/-- A power `Request` (fields from the spec, section 3; the dataclass lives
in `request.py`, outside the sources). `power` is watts, `request_timeout`
seconds. -/
structure Request where
  batteries : Finset ℕ
  power : ℚ
  request_timeout : ℚ
  adjust_power : Bool
deriving DecidableEq

/-- The `Result` sum type sent back for every request (variants from the
spec, section 3; the dataclasses live in `result.py`, outside the
sources). -/
inductive Result where
  | success (request : Request) (succeeded_power : ℚ)
      (succeeded_batteries : Finset ℕ) (excess_power : ℚ)
  | partialFailure (request : Request) (succeeded_power : ℚ)
      (succeeded_batteries : Finset ℕ) (failed_power : ℚ)
      (failed_batteries : Finset ℕ) (excess_power : ℚ)
  | outOfBounds (request : Request) (bounds : PowerBounds)
  | error (request : Request) (msg : String)
deriving DecidableEq

/-- The `request` field shared by all `Result` variants. -/
def Result.request : Result → Request
  | .success r _ _ _ => r
  | .partialFailure r _ _ _ _ _ => r
  | .outOfBounds r _ => r
  | .error r _ => r

/-- Whether a result is the `Error` or `OutOfBounds` variant (the variants
whose send in `_run` is syntactically awaited). -/
def Result.isErrorOrBounds : Result → Bool
  | .error _ _ => true
  | .outOfBounds _ _ => true
  | _ => false

/-- Modelled from the spec: `is_close_to_zero` from `_internal/_math.py`
(not part of the sources).  The spec only says a power `≈ 0` is always
forwarded; we model the approximate-zero test as an absolute tolerance
around zero, which satisfies `is_close_to_zero 0 = true`. -/
def is_close_to_zero (power : ℚ) : Bool := |power| ≤ 1 / 1000000000

/-- Transcription of `PowerDistributingActor._check_request`.  `known` is the key set of
`self._battery_receivers` (one entry per battery with a data channel); the
source iterates over `request.batteries` and returns an `Error` naming the
first battery without a receiver — the iteration order of a Python set is
unspecified, so the model uses a fixed message. -/
def checkRequest (known : Finset ℕ) (request : Request)
    (pairs_data : List InvBatPair) : Option Result :=
  if request.batteries = ∅ then
    some (.error request "Empty battery IDs in the request")
  else if ¬ request.batteries ⊆ known then
    some (.error request "No battery")
  else
    let bounds := getBounds pairs_data
    let power := request.power
    if is_close_to_zero power then
      none
    else if request.adjust_power then
      if bounds.exclusion_lower < power ∧ power < bounds.exclusion_upper then
        some (.outOfBounds request bounds)
      else
        none
    else
      let in_lower_range :=
        bounds.inclusion_lower ≤ power ∧ power ≤ bounds.exclusion_lower
      let in_upper_range :=
        bounds.exclusion_upper ≤ power ∧ power ≤ bounds.inclusion_upper
      if ¬ (in_lower_range ∨ in_upper_range) then
        some (.outOfBounds request bounds)
      else
        none

/-- The topology maps built once at construction by
`_get_battery_inverter_mappings` (battery to adjacent inverters and
inverter to adjacent batteries; total functions returning `∅` for unknown
ids, as the actor only queries ids it put into the maps). -/
structure Topology where
  bat_invs : ℕ → Finset ℕ
  inv_bats : ℕ → Finset ℕ

/-- Transcription of `_get_all_from_map`: union of the map's values over a set of keys. -/
def getAllFromMap (source : ℕ → Finset ℕ) (keys : Finset ℕ) : Finset ℕ :=
  keys.biUnion source

/-- The battery set implied by a requested battery set: expand to the
connected inverters through `bat_invs`, then back through `inv_bats`
(`_get_components_data`, the mismatch check). -/
def impliedBatteries (topo : Topology) (batteries : Finset ℕ) : Finset ℕ :=
  getAllFromMap topo.inv_bats (getAllFromMap topo.bat_invs batteries)

/-- Transcription of `PowerDistributingActor._get_components_data`, with the external
collaborators made explicit: `known` is the key set of
`self._battery_receivers`, `working` is the health tracker's answer
`get_working_batteries(batteries)`, and `snapshot` is the list of
`InvBatPair`s produced by the per-class peek/NaN-filter loop over the
device caches (external data).  A `KeyError` becomes `.error`: one is
raised for a working battery without a receiver, and one when the implied
battery set differs from the requested one. -/
def getComponentsData (topo : Topology) (known working : Finset ℕ)
    (snapshot : List InvBatPair) (batteries : Finset ℕ) :
    Except String (List InvBatPair) :=
  if ¬ working ⊆ known then
    .error "No battery"
  else if impliedBatteries topo batteries ≠ batteries then
    .error "Inverters are connected to batteries that were not requested"
  else
    .ok snapshot

/-- The result of the distribution algorithm
(`DistributionResult` from `_distribution_algorithm.py`, outside the
sources): power per inverter id, and the undistributed remainder. -/
structure DistributionResult where
  distribution : List (ℕ × ℚ)
  remaining_power : ℚ
deriving DecidableEq

/-- Outcome of one `set_power` task, as classified by `_parse_result`:
completed without exception, failed with an RPC error (tagged with whether
its code was `OUT_OF_RANGE`), or cancelled by the request timeout. -/
inductive TaskOutcome where
  | ok
  | rpcError (out_of_range : Bool)
  | cancelled
deriving DecidableEq

/-- Transcription of `PowerDistributingActor._parse_result`: fold over the per-inverter
tasks accumulating the failed power (the commanded watts of every inverter
whose task raised or was cancelled) and the union of the batteries adjacent
to those inverters. -/
def parseResult (inv_bats : ℕ → Finset ℕ) (outcomes : ℕ → TaskOutcome)
    (distribution : List (ℕ × ℚ)) : ℚ × Finset ℕ :=
  distribution.foldl
    (fun acc entry =>
      match outcomes entry.1 with
      | .ok => acc
      | _ => (acc.1 + entry.2, acc.2 ∪ inv_bats entry.1))
    (0, ∅)

/-- The key set of the `battery_distribution` dict built in `_run`: every
battery adjacent to an inverter that received a command. -/
def batteryDistributionKeys (inv_bats : ℕ → Finset ℕ)
    (distribution : List (ℕ × ℚ)) : Finset ℕ :=
  distribution.foldl (fun acc entry => acc ∪ inv_bats entry.1) ∅

/-- The environment one iteration of `_run` executes in: the (immutable)
topology, the receiver key set, and the answers of the external
collaborators consulted during the iteration (health tracker, device
caches, distribution algorithm, `set_power` endpoints). -/
structure Env where
  topo : Topology
  known : Finset ℕ
  working : Finset ℕ
  snapshot : List InvBatPair
  distribution : Except String DistributionResult
  outcomes : ℕ → TaskOutcome

/-- One iteration of the `async for request in self._requests_receiver`
loop of `PowerDistributingActor._run`, transcribed branch by branch.  The
returned list holds every result sent during the iteration, paired with
whether that send was syntactically awaited in the source (`await
self._result_sender.send(...)` on the error paths versus the bare
`asyncio.gather(...)` that schedules the `Success`/`PartialFailure`
send without awaiting it). -/
def runIteration (env : Env) (request : Request) : List (Result × Bool) :=
  match getComponentsData env.topo env.known env.working env.snapshot
      request.batteries with
  | .error msg => [(.error request msg, true)]
  | .ok pairs_data =>
    if pairs_data.isEmpty then
      [(.error request "No data for at least one of the given batteries", true)]
    else
      match checkRequest env.known request pairs_data with
      | some err => [(err, true)]
      | none =>
        match env.distribution with
        | .error msg =>
          [(.error request ("Could not distribute power, error: " ++ msg), true)]
        | .ok dist =>
          let distributed_power_value := request.power - dist.remaining_power
          let failed := parseResult env.topo.inv_bats env.outcomes
            dist.distribution
          let keys := batteryDistributionKeys env.topo.inv_bats
            dist.distribution
          if failed.2 ≠ ∅ then
            [(.partialFailure request (distributed_power_value - failed.1)
                (keys \ failed.2) failed.1 failed.2 dist.remaining_power,
              false)]
          else
            [(.success request distributed_power_value keys
                dist.remaining_power, false)]

/-- The request loop of `_run`: requests are consumed one at a time, in
arrival order; `envOf` gives the external world's answers for each
request. -/
def runLoop (envOf : Request → Env) : List Request → List (Result × Bool)
  | [] => []
  | request :: rest => runIteration (envOf request) request ++ runLoop envOf rest

/-- A topology with a single battery 1 behind a single inverter 10 (the
topology expansion of `{1}` is `{1}` itself). -/
def singleBatteryTopology : Topology where
  bat_invs := fun b => if b = 1 then {10} else ∅
  inv_bats := fun i => if i = 10 then {1} else ∅

/-- An environment in which a request for battery 1 runs the whole happy
path: data available, bounds check passed, distribution computed, and the
`set_power` call succeeding. -/
def successEnv : Env where
  topo := singleBatteryTopology
  known := {1}
  working := {1}
  snapshot := [c1ExamplePair]
  distribution := .ok { distribution := [(10, 0)], remaining_power := 0 }
  outcomes := fun _ => .ok

/-- A zero-power request for battery 1 (zero power is always forwarded). -/
def successRequest : Request where
  batteries := {1}
  power := 0
  request_timeout := 1
  adjust_power := false

/-- A topology where batteries 1 and 2 share inverter 10: requesting only
battery 1 expands (through the shared inverter) to the battery set
`{1, 2}`, different from the requested `{1}`. -/
def sharedInverterTopology : Topology where
  bat_invs := fun b => if b = 1 ∨ b = 2 then {10} else ∅
  inv_bats := fun i => if i = 10 then {1, 2} else ∅

/-- An iteration environment over the shared-inverter topology, with both
batteries known and battery 1 working. -/
def sharedInverterEnv : Env where
  topo := sharedInverterTopology
  known := {1, 2}
  working := {1}
  snapshot := [c1ExamplePair]
  distribution := .ok { distribution := [(10, 0)], remaining_power := 0 }
  outcomes := fun _ => .ok

/-- A request for battery 1 only, over the shared-inverter topology. -/
def sharedInverterRequest : Request where
  batteries := {1}
  power := 0
  request_timeout := 1
  adjust_power := false

/-! ## Timeseries resampler (`_resampling.py`) -/

/-- The value of a raw `Sample`: Python's `None`, a float `NaN`, or an
actual number.  `NaN` is kept symbolic — the only operation the resampler
performs on it is `math.isnan`. -/
inductive RawValue where
  | none
  | nan
  | num (q : ℚ)
deriving DecidableEq

/-- A timeseries `Sample`: a timestamp and an optional value. -/
structure Sample where
  timestamp : ℚ
  value : RawValue
deriving DecidableEq

/-- The relevant fields of `ResamplerConfig` (the resampling function is
passed separately where needed).  Buffer lengths are `ℤ`, as Python ints. -/
structure ResamplerConfig where
  resampling_period_s : ℚ
  max_data_age_in_periods : ℚ
  initial_buffer_len : ℤ
  warn_buffer_len : ℤ
  max_buffer_len : ℤ
deriving DecidableEq

/-- Transcription of `ResamplerConfig.__post_init__`: the validation checks, in source
order; `.error` marks a raised `ValueError`.  (The final
`initial_buffer_len > warn_buffer_len` case only logs a warning.) -/
def configPostInit (c : ResamplerConfig) : Except String Unit :=
  if c.resampling_period_s < 0 then
    .error "resampling_period_s must be positive"
  else if c.max_data_age_in_periods < 1 then
    .error "max_data_age_in_periods should be at least 1.0"
  else if c.warn_buffer_len < 1 then
    .error "warn_buffer_len should be at least 1"
  else if c.max_buffer_len ≤ c.warn_buffer_len then
    .error "max_buffer_len should be bigger than warn_buffer_len"
  else if c.initial_buffer_len < 1 then
    .error "initial_buffer_len should at least 1"
  else if c.initial_buffer_len > c.max_buffer_len then
    .error "initial_buffer_len is bigger than max_buffer_len"
  else
    .ok ()

/-- The constraints claim C9 states for `ResamplerConfig` (and that the
dataclass docstrings state): all of them, including a strictly positive
resampling period. -/
def configConstraintsC9 (c : ResamplerConfig) : Prop :=
  0 < c.resampling_period_s
    ∧ 1 ≤ c.max_data_age_in_periods
    ∧ 1 ≤ c.initial_buffer_len
    ∧ c.initial_buffer_len ≤ c.max_buffer_len
    ∧ 1 ≤ c.warn_buffer_len
    ∧ c.warn_buffer_len < c.max_buffer_len

instance (c : ResamplerConfig) : Decidable (configConstraintsC9 c) := by
  unfold configConstraintsC9
  infer_instance

/-- Transcription of `_StreamingHelper._receive_samples`: the background ingest loop keeps
a sample only if its value `is not None and not math.isnan(...)`, and hands
it to `_ResamplingHelper.add_sample`, which appends it to the ring buffer.
The buffer contents after ingesting a stream is therefore the filtered
stream (possibly truncated, see `ringSuffix`). -/
def ingestFilter (stream : List Sample) : List Sample :=
  stream.filter (fun sample =>
    match sample.value with
    | .num _ => true
    | _ => false)

/-- The ring buffer (`deque(maxlen=n)`) keeps the newest `n` appended
samples, and a rebuild (`deque(self._buffer, maxlen=new_buffer_len)`) keeps
the newest `new_buffer_len` of the current contents: in every state the
buffer is some suffix of the filtered ingest stream, here the one dropping
the `k` oldest samples. -/
def ringSuffix (buffer : List Sample) (k : ℕ) : List Sample :=
  buffer.drop k

/-- Transcription of `_ResamplingHelper._update_buffer_len`, the desired-capacity
computation: if the inferred input period is bigger than the resampling
period use `input_period * max_data_age_in_periods`, otherwise
`resampling_period / input_period * max_data_age_in_periods`; ceil, floor
at 1, and truncate to `max_buffer_len`. -/
def desiredBufferLen (c : ResamplerConfig) (input_sampling_period_s : ℚ) : ℤ :=
  let new_buffer_len : ℚ :=
    if input_sampling_period_s > c.resampling_period_s then
      input_sampling_period_s * c.max_data_age_in_periods
    else
      c.resampling_period_s / input_sampling_period_s * c.max_data_age_in_periods
  let ceiled : ℤ := max 1 ⌈new_buffer_len⌉
  if ceiled > c.max_buffer_len then c.max_buffer_len else ceiled

/-- The desired-capacity computation as worded by claim C8: identical
except that the first formula is chosen already when
`input_period ≥ resampling_period` (non-strict). -/
def desiredBufferLenSpecC8 (c : ResamplerConfig)
    (input_sampling_period_s : ℚ) : ℤ :=
  let new_buffer_len : ℚ :=
    if input_sampling_period_s ≥ c.resampling_period_s then
      input_sampling_period_s * c.max_data_age_in_periods
    else
      c.resampling_period_s / input_sampling_period_s * c.max_data_age_in_periods
  let ceiled : ℤ := max 1 ⌈new_buffer_len⌉
  if ceiled > c.max_buffer_len then c.max_buffer_len else ceiled

/-- Transcription of `_ResamplingHelper._update_buffer_len`, the state change: if the
desired capacity equals the current `maxlen` nothing changes (returns
`false`); otherwise the ring is rebuilt with the new capacity, keeping the
newest samples of the current contents.  Returns
`(buffer, maxlen, changed)`. -/
def updateBufferLen (c : ResamplerConfig) (input_sampling_period_s : ℚ)
    (buffer : List Sample) (maxlen : ℤ) : List Sample × ℤ × Bool :=
  let new_buffer_len := desiredBufferLen c input_sampling_period_s
  if new_buffer_len = maxlen then
    (buffer, maxlen, false)
  else
    (ringSuffix buffer (buffer.length - new_buffer_len.toNat), new_buffer_len,
      true)

/-- The window period used by `_ResamplingHelper.resample`:
`max(resampling_period_s, sampling_period_s)` when the input period is
known, the resampling period otherwise. -/
def windowPeriod (c : ResamplerConfig) (input_period : Option ℚ) : ℚ :=
  match input_period with
  | some p => max c.resampling_period_s p
  | none => c.resampling_period_s

/-- The oldest timestamp still relevant at resample time `t`:
`t - period * max_data_age_in_periods`. -/
def minimumRelevantTimestamp (c : ResamplerConfig) (input_period : Option ℚ)
    (t : ℚ) : ℚ :=
  t - windowPeriod c input_period * c.max_data_age_in_periods

/-- Modelled from the spec: the window selection of
`_ResamplingHelper.resample` picks the samples with
`minimum_relevant_timestamp < timestamp ≤ t` (spec, section 4.5 step 3).
The source implements this with two `bisect` calls over the
timestamp-ordered buffer; `Sample`'s ordering is defined outside the
sources, so the selection predicate is taken from the spec. -/
def relevantSamples (buffer : List Sample) (min_relevant t : ℚ) :
    List Sample :=
  buffer.filter (fun s => min_relevant < s.timestamp ∧ s.timestamp ≤ t)

/-- Transcription of `_ResamplingHelper.resample`, the compute step: apply the resampling
function to the relevant samples if there are any, otherwise produce a
`None`-valued sample.  The resampling function also receives the config and
the source properties in the source; they are irrelevant here, so `f` is
abstracted as a function of the window. -/
def resampleCompute (f : List Sample → ℚ) (c : ResamplerConfig)
    (input_period : Option ℚ) (buffer : List Sample) (t : ℚ) : Sample :=
  let rel := relevantSamples buffer (minimumRelevantTimestamp c input_period t) t
  ⟨t, if rel.isEmpty then .none else .num (f rel)⟩

/-- The `values` list built by the default `average` resampling function:
every sample value that `is not None` (a `NaN`, were one present, would be
kept).  `average` asserts its input is non-empty and divides the sum of
`values` by `len(values)`. -/
def averageValues (samples : List Sample) : List RawValue :=
  (samples.map Sample.value).filter (fun v => v ≠ RawValue.none)

/-- One iteration of the `while True` loop of `Resampler.resample`
(the body after the wait): every registered helper is handed the current
`window_end` as the resample timestamp, then `window_end` is advanced by
pure addition of the resampling period — *before* the collected per-helper
exceptions are examined and possibly re-raised as `ResamplingError`.
Returns `(timestamp handed to the helpers, new window_end, raised)`. -/
def resampleStep (period window_end : ℚ) (helper_failed : Bool) :
    ℚ × ℚ × Bool :=
  (window_end, window_end + period, helper_failed)

/-- The iterations of the resampler driver.  `window_end` lives on the
`Resampler` object, so when an iteration raises `ResamplingError` and the
user calls `resample()` again the next iteration resumes from the advanced
`window_end`; the `n`-th loop body executed over the lifetime of the
resampler is therefore the `n`-th entry here, whatever the interleaving of
raises.  Returns the list of timestamps handed to the helpers and the final
`window_end`. -/
def resampleIterations (period window_end : ℚ) :
    List Bool → List ℚ × ℚ
  | [] => ([], window_end)
  | failed :: rest =>
    let step := resampleStep period window_end failed
    let next := resampleIterations period step.2.1 rest
    (step.1 :: next.1, next.2)

/-! ## Helper lemmas -/

/-- Summing a metric over the concatenation of all pairs' inverter lists is
the same as summing the per-pair sums. -/
lemma sum_map_flatMap_inverter (pairs : List InvBatPair)
    (g : InverterData → ℚ) :
    ((pairs.flatMap InvBatPair.inverter).map g).sum
      = (pairs.map (fun p => (p.inverter.map g).sum)).sum := by
  induction pairs with
  | nil => rfl
  | cons p ps ih => simp [List.flatMap_cons, ih]

/-- The function `_check_request` only ever answers with an `Error` for the request or
with `OutOfBounds` carrying the aggregate bounds of the snapshot. -/
lemma checkRequest_shape (known : Finset ℕ) (request : Request)
    (pairs_data : List InvBatPair) (r : Result)
    (h : checkRequest known request pairs_data = some r) :
    (∃ msg, r = .error request msg)
      ∨ r = .outOfBounds request (getBounds pairs_data) := by
  unfold checkRequest at h
  repeat' split at h <;>
    first
      | (simp only [Option.some.injEq] at h; exact Or.inl ⟨_, h.symm⟩)
      | (simp at h; try exact Or.inr h.2.2.symm)

/-- Inversion for one iteration of the request loop: every sent result is
either an awaited `Error`/`OutOfBounds`, or an un-awaited
`Success`/`PartialFailure` built from the distribution and the dispatch
outcomes exactly as `_run` does. -/
lemma runIteration_inv (env : Env) (request : Request) (res : Result)
    (aw : Bool) (h : (res, aw) ∈ runIteration env request) :
    (aw = true ∧ ((∃ msg, res = .error request msg)
        ∨ ∃ pairs_data, res = .outOfBounds request (getBounds pairs_data)))
      ∨ (aw = false ∧ ∃ dist, env.distribution = .ok dist ∧
          (((parseResult env.topo.inv_bats env.outcomes dist.distribution).2 = ∅
              ∧ res = .success request (request.power - dist.remaining_power)
                  (batteryDistributionKeys env.topo.inv_bats dist.distribution)
                  dist.remaining_power)
            ∨ ((parseResult env.topo.inv_bats env.outcomes dist.distribution).2 ≠ ∅
              ∧ res = .partialFailure request
                  (request.power - dist.remaining_power
                    - (parseResult env.topo.inv_bats env.outcomes
                        dist.distribution).1)
                  (batteryDistributionKeys env.topo.inv_bats dist.distribution
                    \ (parseResult env.topo.inv_bats env.outcomes
                        dist.distribution).2)
                  (parseResult env.topo.inv_bats env.outcomes
                    dist.distribution).1
                  (parseResult env.topo.inv_bats env.outcomes
                    dist.distribution).2
                  dist.remaining_power))) := by
  unfold runIteration at h
  cases hc : getComponentsData env.topo env.known env.working env.snapshot
      request.batteries with
  | error msg =>
    rw [hc] at h
    simp at h
    exact Or.inl ⟨h.2, Or.inl ⟨msg, h.1⟩⟩
  | ok pairs_data =>
    rw [hc] at h
    by_cases he : pairs_data.isEmpty
    · simp [he] at h
      exact Or.inl ⟨h.2, Or.inl ⟨_, h.1⟩⟩
    · simp only [he, Bool.false_eq_true, if_false] at h
      cases hck : checkRequest env.known request pairs_data with
      | some err =>
        rw [hck] at h
        simp at h
        rcases checkRequest_shape env.known request pairs_data err hck with
          ⟨msg, rfl⟩ | rfl
        · exact Or.inl ⟨h.2, Or.inl ⟨msg, h.1⟩⟩
        · exact Or.inl ⟨h.2, Or.inr ⟨pairs_data, h.1⟩⟩
      | none =>
        rw [hck] at h
        cases hd : env.distribution with
        | error msg =>
          rw [hd] at h
          simp at h
          exact Or.inl ⟨h.2, Or.inl ⟨_, h.1⟩⟩
        | ok dist =>
          rw [hd] at h
          by_cases hf : (parseResult env.topo.inv_bats env.outcomes
              dist.distribution).2 = ∅
          · simp [hf] at h
            exact Or.inr ⟨h.2, dist, rfl, Or.inl ⟨hf, h.1⟩⟩
          · simp [hf] at h
            exact Or.inr ⟨h.2, dist, rfl, Or.inr ⟨hf, h.1⟩⟩

/-- Each iteration of the request loop sends exactly one result, and its
`request` field is the request being processed. -/
lemma runIteration_requests (env : Env) (request : Request) :
    (runIteration env request).map (fun p => p.1.request) = [request] := by
  unfold runIteration
  cases hc : getComponentsData env.topo env.known env.working env.snapshot
      request.batteries with
  | error msg => simp [Result.request]
  | ok pairs_data =>
    by_cases he : pairs_data.isEmpty
    · simp [he, Result.request]
    · simp only [he, Bool.false_eq_true, if_false]
      cases hck : checkRequest env.known request pairs_data with
      | some err =>
        rcases checkRequest_shape env.known request pairs_data err hck with
          ⟨msg, rfl⟩ | rfl <;> simp [Result.request]
      | none =>
        cases hd : env.distribution with
        | error msg => simp [Result.request]
        | ok dist =>
          by_cases hf : (parseResult env.topo.inv_bats env.outcomes
              dist.distribution).2 = ∅
          · simp [hf, Result.request]
          · simp [hf, Result.request]

/-- On the happy-path environment the iteration produces exactly the
un-awaited `Success` result. -/
lemma runIteration_successEnv :
    runIteration successEnv successRequest
      = [(.success successRequest 0 ({1} : Finset ℕ) 0, false)] := by
  have hz : is_close_to_zero (0 : ℚ) = true := by
    simp [is_close_to_zero]
  have himp : impliedBatteries singleBatteryTopology {1} = ({1} : Finset ℕ) := by
    decide
  have hib : singleBatteryTopology.inv_bats 10 = ({1} : Finset ℕ) := by decide
  unfold runIteration getComponentsData checkRequest
  simp [successEnv, successRequest, himp, hib, hz, parseResult,
    batteryDistributionKeys]

/-! ## Claim C1 -/

/-- C1 (counterexample): on two identical pairs whose battery exclusion
bound is `[-10, 10]` and whose single inverter's exclusion bound is
`[-5, 5]`, the code's aggregate `exclusion_lower` is the min of global sums
(`min (-20) (-10) = -20`), while the per-pair `min`/`max` rule stated by
the claim yields `-10`; the two aggregates differ. -/
theorem c1_counterexample :
    (getBounds [c1ExamplePair, c1ExamplePair]).exclusion_lower = -20
      ∧ (getBoundsSpecC1 [c1ExamplePair, c1ExamplePair]).exclusion_lower = -10
      ∧ getBounds [c1ExamplePair, c1ExamplePair]
          ≠ getBoundsSpecC1 [c1ExamplePair, c1ExamplePair] := by
  refine ⟨?_, ?_, ?_⟩
  · simp [getBounds, c1ExamplePair, min_def]
    norm_num
  · simp [getBoundsSpecC1, c1ExamplePair, min_def, List.min?]
    norm_num
  · intro h
    have h2 := congrArg PowerBounds.exclusion_lower h
    simp [getBounds, getBoundsSpecC1, c1ExamplePair, min_def, List.min?] at h2
    norm_num at h2

/-- C1 (amended): for every non-empty list of `InvBatPair`s the aggregate
bounds are: inclusion bounds summed per pair with the per-pair `max`/`min`
combination of battery and inverter-sum bounds (as the claim states), but
the exclusion bounds are the `min` (resp. `max`) of two *global* sums — the
sum of all batteries' exclusion bounds and the sum of all inverters'
exclusion bounds over the whole snapshot — not the per-pair `min`/`max`
rule. -/
theorem c1_aggregate_bounds (pairs : List InvBatPair) (_nonempty : pairs ≠ []) :
    (getBounds pairs).inclusion_lower
        = (pairs.map (fun p =>
            max p.battery.power_bounds.inclusion_lower
              ((p.inverter.map
                (fun inverter =>
                  inverter.active_power_inclusion_lower_bound)).sum))).sum
      ∧ (getBounds pairs).inclusion_upper
        = (pairs.map (fun p =>
            min p.battery.power_bounds.inclusion_upper
              ((p.inverter.map
                (fun inverter =>
                  inverter.active_power_inclusion_upper_bound)).sum))).sum
      ∧ (getBounds pairs).exclusion_lower
        = min ((pairs.map
              (fun p => p.battery.power_bounds.exclusion_lower)).sum)
            (((pairs.flatMap InvBatPair.inverter).map
              (fun inverter =>
                inverter.active_power_exclusion_lower_bound)).sum)
      ∧ (getBounds pairs).exclusion_upper
        = max ((pairs.map
              (fun p => p.battery.power_bounds.exclusion_upper)).sum)
            (((pairs.flatMap InvBatPair.inverter).map
              (fun inverter =>
                inverter.active_power_exclusion_upper_bound)).sum) := by
  refine ⟨rfl, rfl, ?_, ?_⟩
  · rw [sum_map_flatMap_inverter]
    rfl
  · rw [sum_map_flatMap_inverter]
    rfl

/-- C1 witness: the amended aggregate-bound characterisation evaluated on
the concrete singleton snapshot. -/
theorem c1_aggregate_bounds_witness :
    (getBounds [c1ExamplePair]).exclusion_lower
      = min ((([c1ExamplePair] : List InvBatPair).map
            (fun p => p.battery.power_bounds.exclusion_lower)).sum)
          (((([c1ExamplePair] : List InvBatPair).flatMap
              InvBatPair.inverter).map
            (fun inverter =>
              inverter.active_power_exclusion_lower_bound)).sum) :=
  (c1_aggregate_bounds [c1ExamplePair] (by simp)).2.2.1

/-! ## Claim C2 -/

/-- C2 (counterexample): for the request targeting only battery 1 of a
shared-inverter pair, the topology expansion yields a different battery
set, and the iteration answers with an `Error` result — the request is
aborted, not processed with a mere log message. -/
theorem c2_counterexample :
    impliedBatteries sharedInverterEnv.topo sharedInverterRequest.batteries
        ≠ sharedInverterRequest.batteries
      ∧ runIteration sharedInverterEnv sharedInverterRequest
        = [(.error sharedInverterRequest
            "Inverters are connected to batteries that were not requested",
          true)] := by
  constructor
  · decide
  · rfl

/-- C2 (amended): whenever the battery set implied by the topology
expansion differs from the requested one (and the working batteries all
have receivers, so the earlier check passes), `_get_components_data` raises
`KeyError`, and the iteration sends exactly one `Error` result for the
request and does nothing else. -/
theorem c2_mismatch_is_error (env : Env) (request : Request)
    (hw : env.working ⊆ env.known)
    (hm : impliedBatteries env.topo request.batteries ≠ request.batteries) :
    runIteration env request
      = [(.error request
          "Inverters are connected to batteries that were not requested",
        true)] := by
  unfold runIteration getComponentsData
  simp [hw, hm]

/-- C2 witness: the amended statement evaluated on the shared-inverter
environment. -/
theorem c2_mismatch_is_error_witness :
    runIteration sharedInverterEnv sharedInverterRequest
      = [(.error sharedInverterRequest
          "Inverters are connected to batteries that were not requested",
        true)] :=
  c2_mismatch_is_error sharedInverterEnv sharedInverterRequest (by decide)
    (by decide)


/-! ## Claim C3 -/

/-- C3 (confirmed): every emitted `Success` satisfies
`succeeded_power + excess_power = request.power`, every emitted
`PartialFailure` satisfies
`succeeded_power + failed_power + excess_power = request.power`, the
`Success` variant is produced exactly when the set of failed batteries is
empty, and `PartialFailure.succeeded_batteries` is the battery set of the
distribution minus the failed batteries.  (Over `ℚ` the identities are
exact; the code states them up to floating tolerance.) -/
theorem c3_result_arithmetic (env : Env) (request : Request) :
    (∀ r sp sb ep aw,
        ((Result.success r sp sb ep, aw) ∈ runIteration env request) →
          r = request ∧ sp + ep = request.power ∧
          ∃ dist, env.distribution = .ok dist ∧
            (parseResult env.topo.inv_bats env.outcomes dist.distribution).2
              = ∅ ∧
            sb = batteryDistributionKeys env.topo.inv_bats dist.distribution)
      ∧ (∀ r sp sb fp fb ep aw,
        ((Result.partialFailure r sp sb fp fb ep, aw) ∈ runIteration env request) →
          r = request ∧ sp + fp + ep = request.power ∧ fb ≠ ∅ ∧
          ∃ dist, env.distribution = .ok dist ∧
            fb = (parseResult env.topo.inv_bats env.outcomes
              dist.distribution).2 ∧
            sb = batteryDistributionKeys env.topo.inv_bats dist.distribution
              \ fb) := by
  constructor
  · intro r sp sb ep aw h
    rcases runIteration_inv env request _ _ h with
      ⟨_, ⟨msg, heq⟩ | ⟨pd, heq⟩⟩ | ⟨_, dist, hdist, ⟨hf, heq⟩ | ⟨hf, heq⟩⟩
    · exact absurd heq (by simp)
    · exact absurd heq (by simp)
    · injection heq with h1 h2 h3 h4
      subst h1; subst h2; subst h3; subst h4
      exact ⟨rfl, by ring, dist, hdist, hf, rfl⟩
    · exact absurd heq (by simp)
  · intro r sp sb fp fb ep aw h
    rcases runIteration_inv env request _ _ h with
      ⟨_, ⟨msg, heq⟩ | ⟨pd, heq⟩⟩ | ⟨_, dist, hdist, ⟨hf, heq⟩ | ⟨hf, heq⟩⟩
    · exact absurd heq (by simp)
    · exact absurd heq (by simp)
    · exact absurd heq (by simp)
    · injection heq with h1 h2 h3 h4 h5 h6
      subst h1; subst h2; subst h3; subst h4; subst h5; subst h6
      exact ⟨rfl, by ring, hf, dist, hdist, rfl, rfl⟩

/-- C3 witness: the `Success` identity evaluated on the happy-path
environment (`succeeded_power + excess_power = 0 + 0 = request.power`). -/
theorem c3_result_arithmetic_witness :
    successRequest = successRequest ∧ (0 : ℚ) + 0 = successRequest.power := by
  have h := (c3_result_arithmetic successEnv successRequest).1 successRequest
    0 {1} 0 false
    (by rw [runIteration_successEnv]; exact List.mem_singleton.mpr rfl)
  exact ⟨h.1, h.2.1⟩

/-! ## Claim C4 -/

/-- C4 (confirmed): the request loop sends, for every consumed request,
exactly one result whose `request` field is that request — the emitted
results' request fields are, in order, exactly the consumed requests. -/
theorem c4_exactly_one_result (envOf : Request → Env)
    (requests : List Request) :
    (runLoop envOf requests).map (fun p => p.1.request) = requests := by
  induction requests with
  | nil => rfl
  | cons request rest ih =>
    simp only [runLoop, List.map_append, ih, runIteration_requests]
    rfl

/-! ## Claim C7 -/

/-- C7 (counterexample): on the happy-path environment the single result of
the request is a `Success` whose send is *not* awaited (`asyncio.gather` is
called without `await` in `_run`), so it is false that every result send is
awaited before the next request starts. -/
theorem c7_counterexample :
    runIteration successEnv successRequest
        = [(.success successRequest 0 ({1} : Finset ℕ) 0, false)]
      ∧ ¬ ∀ res aw, ((res, aw) ∈ runIteration successEnv successRequest) →
          aw = true := by
  refine ⟨runIteration_successEnv, fun hall => ?_⟩
  have h := hall (.success successRequest 0 ({1} : Finset ℕ) 0) false
    (by rw [runIteration_successEnv]; exact List.mem_singleton.mpr rfl)
  cases h

/-- C7 (amended): requests are consumed one at a time in arrival order
(`runLoop`), and a result's send is awaited by the distributor exactly when
the result is an `Error` or `OutOfBounds`; the `Success` and
`PartialFailure` sends are scheduled with a bare `asyncio.gather`, without
awaiting, so the loop can start the next request before such a result is
enqueued. -/
theorem c7_awaited_iff_error (env : Env) (request : Request) (res : Result)
    (aw : Bool) (h : (res, aw) ∈ runIteration env request) :
    aw = res.isErrorOrBounds := by
  rcases runIteration_inv env request res aw h with
    ⟨rfl, ⟨msg, rfl⟩ | ⟨pd, rfl⟩⟩ | ⟨rfl, dist, hdist, ⟨hf, rfl⟩ | ⟨hf, rfl⟩⟩ <;>
    rfl

/-- C7 witness: the awaited flag of the happy-path `Success` result equals
its `isErrorOrBounds` (both `false`). -/
theorem c7_awaited_iff_error_witness :
    false = (Result.success successRequest 0 ({1} : Finset ℕ) 0).isErrorOrBounds :=
  c7_awaited_iff_error successEnv successRequest _ _
    (by rw [runIteration_successEnv]; exact List.mem_singleton.mpr rfl)

/-! ## Claim C5 -/

/-- C5 (confirmed): given a non-empty request whose batteries all have
receivers, `_check_request` answers `OutOfBounds` exactly when the power is
not approximately zero and either `adjust_power` holds and the power lies
strictly inside the exclusion band, or `adjust_power` is false and the
power lies outside both admissible closed ranges; moreover a request with
`power = 0` is never answered with `OutOfBounds`, whatever the bounds and
battery sets. -/
theorem c5_out_of_bounds_iff (known : Finset ℕ) (request : Request)
    (pairs_data : List InvBatPair) :
    (request.batteries ≠ ∅ → request.batteries ⊆ known →
      ((∃ b, checkRequest known request pairs_data
          = some (.outOfBounds request b))
        ↔ (is_close_to_zero request.power = false ∧
            ((request.adjust_power = true ∧
                (getBounds pairs_data).exclusion_lower < request.power ∧
                request.power < (getBounds pairs_data).exclusion_upper)
              ∨ (request.adjust_power = false ∧
                ¬ (((getBounds pairs_data).inclusion_lower ≤ request.power
                      ∧ request.power
                        ≤ (getBounds pairs_data).exclusion_lower)
                    ∨ ((getBounds pairs_data).exclusion_upper
                        ≤ request.power
                      ∧ request.power
                        ≤ (getBounds pairs_data).inclusion_upper)))))))
    ∧ (request.power = 0 → ∀ b : PowerBounds,
        checkRequest known request pairs_data
          ≠ some (.outOfBounds request b)) := by
  constructor
  · intro h1 h2
    unfold checkRequest
    rw [if_neg h1, if_neg (by simpa using h2)]
    cases hz : is_close_to_zero request.power with
    | true => simp [hz]
    | false =>
      cases ha : request.adjust_power with
      | true =>
        by_cases hc : (getBounds pairs_data).exclusion_lower < request.power
            ∧ request.power < (getBounds pairs_data).exclusion_upper
        · simp [hz, ha, hc]
        · simp [hz, ha, hc]
      | false =>
        by_cases hc : ((getBounds pairs_data).inclusion_lower ≤ request.power
              ∧ request.power ≤ (getBounds pairs_data).exclusion_lower)
            ∨ ((getBounds pairs_data).exclusion_upper ≤ request.power
              ∧ request.power ≤ (getBounds pairs_data).inclusion_upper)
        · simp [hz, ha, hc]
        · simp [hz, ha, hc]
  · intro h0 b hcontra
    have hz : is_close_to_zero request.power = true := by
      rw [h0]
      simp [is_close_to_zero]
    unfold checkRequest at hcontra
    split at hcontra
    · simp at hcontra
    · split at hcontra
      · simp at hcontra
      · simp [hz] at hcontra

/-- C5 witness: the zero-power request on the single-battery snapshot is
not answered with `OutOfBounds`. -/
theorem c5_out_of_bounds_iff_witness :
    checkRequest {1} successRequest [c1ExamplePair]
      ≠ some (.outOfBounds successRequest (getBounds [c1ExamplePair])) :=
  (c5_out_of_bounds_iff {1} successRequest [c1ExamplePair]).2 rfl
    (getBounds [c1ExamplePair])

/-! ## Claim C6 -/

/-- C6 (confirmed): across the iterations of the resampler driver the
timestamps handed to the helpers form the exact arithmetic progression
`w₀, w₀ + P, w₀ + 2·P, …` and `window_end` after `n` iterations is
`w₀ + n·P` — whatever the per-iteration failure flags are, because
`window_end` is advanced by pure addition before the collected exceptions
are raised as `ResamplingError`. -/
theorem c6_window_end_progression (period window_end₀ : ℚ)
    (fails : List Bool) :
    (resampleIterations period window_end₀ fails).1
        = (List.range fails.length).map
            (fun k : ℕ => window_end₀ + (k : ℚ) * period)
      ∧ (resampleIterations period window_end₀ fails).2
        = window_end₀ + (fails.length : ℚ) * period := by
  induction fails generalizing window_end₀ with
  | nil => simp [resampleIterations]
  | cons failed rest ih =>
    obtain ⟨ih1, ih2⟩ := ih (window_end₀ + period)
    constructor
    · simp only [resampleIterations, resampleStep, ih1, List.length_cons,
        List.range_succ_eq_map, List.map_cons, List.map_map]
      refine List.cons_eq_cons.mpr ⟨by push_cast; ring, ?_⟩
      apply List.map_congr_left
      intro k _
      simp only [Function.comp_apply]
      push_cast
      ring
    · simp only [resampleIterations, resampleStep, ih2, List.length_cons]
      push_cast
      ring

/-! ## Claim C8 -/

/-- A valid resampler configuration with a resampling period of 2 seconds,
used as concrete input for the buffer-sizing claims. -/
def exampleResamplerConfig : ResamplerConfig where
  resampling_period_s := 2
  max_data_age_in_periods := 3
  initial_buffer_len := 16
  warn_buffer_len := 128
  max_buffer_len := 1024

/-- C8 (counterexample): with a resampling period of 2 s and an inferred
input period of exactly 2 s, the code takes the `else` branch (strict `>`)
and computes `ceil(2/2 · 3) = 3` slots, while the claim's non-strict `≥`
rule would compute `ceil(2 · 3) = 6` slots. -/
theorem c8_counterexample :
    desiredBufferLen exampleResamplerConfig 2 = 3
      ∧ desiredBufferLenSpecC8 exampleResamplerConfig 2 = 6
      ∧ desiredBufferLen exampleResamplerConfig 2
        ≠ desiredBufferLenSpecC8 exampleResamplerConfig 2 := by
  refine ⟨?_, ?_, ?_⟩ <;>
    norm_num [desiredBufferLen, desiredBufferLenSpecC8, exampleResamplerConfig]

/-- C8 (amended): when the sampling period is newly inferred, the desired
capacity is `input_period · max_data_age_in_periods` slots if
`input_period > resampling_period` (strictly) and
`(resampling_period / input_period) · max_data_age_in_periods` slots
otherwise; the result is ceiled and clamped to `[1, max_buffer_len]`, and
the ring is rebuilt — preserving the newest samples it holds — exactly when
the clamped capacity differs from the current one. -/
theorem c8_buffer_update (c : ResamplerConfig) (input_sampling_period_s : ℚ)
    (buffer : List Sample) (maxlen : ℤ) (hmax : 1 ≤ c.max_buffer_len) :
    (1 ≤ desiredBufferLen c input_sampling_period_s
        ∧ desiredBufferLen c input_sampling_period_s ≤ c.max_buffer_len)
      ∧ desiredBufferLen c input_sampling_period_s
          = min c.max_buffer_len (max 1
              ⌈if input_sampling_period_s > c.resampling_period_s then
                  input_sampling_period_s * c.max_data_age_in_periods
                else c.resampling_period_s / input_sampling_period_s
                  * c.max_data_age_in_periods⌉)
      ∧ ((updateBufferLen c input_sampling_period_s buffer maxlen).2.2 = false
          ↔ desiredBufferLen c input_sampling_period_s = maxlen)
      ∧ ((updateBufferLen c input_sampling_period_s buffer maxlen).2.2 = true →
          (updateBufferLen c input_sampling_period_s buffer maxlen).1
              = buffer.drop (buffer.length
                  - (desiredBufferLen c input_sampling_period_s).toNat)
            ∧ (updateBufferLen c input_sampling_period_s buffer maxlen).2.1
              = desiredBufferLen c input_sampling_period_s) := by
  refine ⟨?_, ?_, ?_, ?_⟩
  · simp only [desiredBufferLen]
    split <;> split <;> omega
  · simp only [desiredBufferLen]
    split <;> split <;> omega
  · simp only [updateBufferLen]
    split <;> simp_all
  · simp only [updateBufferLen, ringSuffix]
    split <;> simp_all

/-- C8 witness: the capacity bounds of the amended statement evaluated at
an input period of 5 s on the example configuration. -/
theorem c8_buffer_update_witness :
    1 ≤ desiredBufferLen exampleResamplerConfig 5
      ∧ desiredBufferLen exampleResamplerConfig 5
        ≤ exampleResamplerConfig.max_buffer_len :=
  (c8_buffer_update exampleResamplerConfig 5 [] 16
    (by norm_num [exampleResamplerConfig])).1

/-! ## Claim C9 -/

/-- A configuration with `resampling_period_s = 0` and every other field
valid. -/
def zeroPeriodConfig : ResamplerConfig where
  resampling_period_s := 0
  max_data_age_in_periods := 3
  initial_buffer_len := 16
  warn_buffer_len := 128
  max_buffer_len := 1024

/-- C9 (code bug): `__post_init__` checks `resampling_period_s < 0.0`, so a
configuration with a resampling period of exactly `0` — which violates the
claimed (and documented: "It must be a positive number", and the raised
message itself says "must be positive") constraint
`resampling_period_s > 0` — is accepted without a `ValueError`. -/
theorem c9_zero_period_accepted :
    configPostInit zeroPeriodConfig = .ok ()
      ∧ ¬ configConstraintsC9 zeroPeriodConfig := by
  constructor
  · norm_num [configPostInit, zeroPeriodConfig]
  · intro h
    exact absurd h.1 (by norm_num [zeroPeriodConfig])

/-- Away from the slipped boundary the validation is exactly the claimed
constraint conjunction: for a strictly positive resampling period,
`__post_init__` succeeds iff all the other constraints hold. -/
lemma configPostInit_ok_iff (c : ResamplerConfig)
    (hpos : 0 < c.resampling_period_s) :
    configPostInit c = .ok () ↔ configConstraintsC9 c := by
  unfold configPostInit configConstraintsC9
  rw [if_neg (by linarith)]
  constructor
  · intro h
    repeat' split at h
    all_goals try exact Except.noConfusion h
    exact ⟨hpos, by linarith, by omega, by omega, by omega, by omega⟩
  · rintro ⟨-, h2, h3, h4, h5, h6⟩
    rw [if_neg (by linarith), if_neg (by omega), if_neg (by omega),
      if_neg (by omega), if_neg (by omega)]

/-! ## Claim C10 -/

/-- A raw input stream containing a numeric sample, a `NaN` sample and a
`None` sample. -/
def exampleStream : List Sample :=
  [⟨0, .num 1⟩, ⟨1, .nan⟩, ⟨2, .none⟩]

/-- C10 (confirmed): in the streaming pipeline every sample that can reach
the resampling function carries an actual number (the ingest task drops
`None` and `NaN` values before they reach the buffer, and the ring only
ever keeps a suffix of what was ingested); on an empty window the helper
returns `Sample(t, None)` without invoking the function (the result is the
same for every function); and on a non-empty window the function is applied
to exactly that window, whose `values` list in the default `average`
function is then non-empty — so the non-emptiness assertion holds and the
division is by a positive count. -/
theorem c10_no_nan_reaches_function (stream : List Sample) (k : ℕ)
    (c : ResamplerConfig) (input_period : Option ℚ) (t : ℚ) :
    (∀ s ∈ relevantSamples (ringSuffix (ingestFilter stream) k)
        (minimumRelevantTimestamp c input_period t) t, ∃ q, s.value = .num q)
      ∧ (relevantSamples (ringSuffix (ingestFilter stream) k)
            (minimumRelevantTimestamp c input_period t) t = [] →
          ∀ f, resampleCompute f c input_period
            (ringSuffix (ingestFilter stream) k) t = ⟨t, .none⟩)
      ∧ (relevantSamples (ringSuffix (ingestFilter stream) k)
            (minimumRelevantTimestamp c input_period t) t ≠ [] →
          (∀ f, resampleCompute f c input_period
              (ringSuffix (ingestFilter stream) k) t
            = ⟨t, .num (f (relevantSamples (ringSuffix (ingestFilter stream) k)
                (minimumRelevantTimestamp c input_period t) t))⟩)
            ∧ 0 < (averageValues (relevantSamples
                (ringSuffix (ingestFilter stream) k)
                (minimumRelevantTimestamp c input_period t) t)).length) := by
  have hmem : ∀ s ∈ relevantSamples (ringSuffix (ingestFilter stream) k)
      (minimumRelevantTimestamp c input_period t) t, ∃ q, s.value = .num q := by
    intro s hs
    have hbuf : s ∈ ringSuffix (ingestFilter stream) k :=
      (List.mem_filter.mp hs).1
    have hfil : s ∈ ingestFilter stream := List.drop_subset _ _ hbuf
    have hkeep := (List.mem_filter.mp hfil).2
    cases hv : s.value with
    | none => rw [hv] at hkeep; simp at hkeep
    | nan => rw [hv] at hkeep; simp at hkeep
    | num q => exact ⟨q, rfl⟩
  refine ⟨hmem, ?_, ?_⟩
  · intro hempty f
    unfold resampleCompute
    rw [hempty]
    rfl
  · intro hne
    refine ⟨?_, ?_⟩
    · intro f
      simp only [resampleCompute]
      rw [if_neg (by simpa [List.isEmpty_iff] using hne)]
    · obtain ⟨s, hs⟩ := List.exists_mem_of_ne_nil _ hne
      obtain ⟨q, hq⟩ := hmem s hs
      have hval : RawValue.num q ∈ averageValues (relevantSamples
          (ringSuffix (ingestFilter stream) k)
          (minimumRelevantTimestamp c input_period t) t) := by
        unfold averageValues
        refine List.mem_filter.mpr ⟨?_, by simp⟩
        exact hq ▸ List.mem_map_of_mem Sample.value hs
      exact List.length_pos.mpr (List.ne_nil_of_mem hval)

/-- C10 witness: on the example stream resampled at `t = 1` with the
example configuration, the window is non-empty and the `average` divisor
count is positive. -/
theorem c10_no_nan_reaches_function_witness :
    0 < (averageValues (relevantSamples
        (ringSuffix (ingestFilter exampleStream) 0)
        (minimumRelevantTimestamp exampleResamplerConfig none 1) 1)).length :=
  ((c10_no_nan_reaches_function exampleStream 0 exampleResamplerConfig none
      1).2.2 (by
        simp [relevantSamples, ringSuffix, ingestFilter, exampleStream,
          minimumRelevantTimestamp, windowPeriod, exampleResamplerConfig]
        norm_num)).2
